import Mathlib

/-!
Verification of the SafeRoad-Guardian decision pipeline and memory bank.

The development shallowly embeds the Python sources:
  src/memory/memory_bank.py       (save_report, was_recently_reported, get_location_history)
  src/agents/supervisor.py        (supervisor_node, route_supervisor)
  src/agents/vision_agent.py      (vision_node)
  src/tools/vision_tools.py       (rendering of detection results)
  src/agents/prioritization_agent.py (prioritization_node, route_prioritization)
  src/agents/report_agent.py      (report_node)
  src/main.py                     (create_graph wiring, modelled by runPipeline)

External collaborators (the Gemini LLM, the YOLO detectors, the ChromaDB
similarity retrieval, and the persistence layer) are modelled as explicit
oracle parameters.  A call that may raise in Python is modelled with Option
(none = exception) or with a Bool success flag, and the pipeline records
the external calls it makes as a list of ExtCall events.
-/

/-- Python substring membership on lists of characters: listContains hay
needle is true when needle occurs contiguously inside hay. -/
def listContains (hay needle : List Char) : Bool :=
  match hay with
  | [] => needle.isEmpty
  | c :: t => needle.isPrefixOf (c :: t) || listContains t needle

/-- Python `needle in hay` on strings, as used by prioritization_node for
the checks `"None" in hazards` and `"Error" in hazards`. -/
def strContains (hay needle : String) : Bool :=
  listContains hay.toList needle.toList

/-- Splits a character list into maximal whitespace-free words, cur being
the reversed prefix of the word in progress; Python str.split() with no
argument. -/
def wordsAux (l : List Char) (cur : List Char) : List (List Char) :=
  match l with
  | [] => if cur.isEmpty then [] else [cur.reverse]
  | c :: t =>
    if c.isWhitespace then
      if cur.isEmpty then wordsAux t [] else cur.reverse :: wordsAux t []
    else wordsAux t (c :: cur)

/-- Python str.split() with no argument, on strings. -/
def pySplitWords (s : String) : List String :=
  (wordsAux s.toList []).map (fun w => String.mk w)

/-- Models `severity.strip().upper().split()[0]` from prioritization_node:
upper-casing commutes with whitespace splitting and strip() only removes
the whitespace that split() ignores, so the first word of the upper-cased
response is taken; none corresponds to the IndexError raised on a blank
response, which the surrounding try/except turns into the fallback branch. -/
def pyFirstWord (s : String) : Option String :=
  ((pySplitWords s).map (fun w => String.mk (w.toList.map Char.toUpper))).head?

/-- One persisted record of the memory bank, mirroring the metadata dict
written by save_report in src/memory/memory_bank.py.  Timestamps are
modelled as integers (datetime values are totally ordered; the unit is
irrelevant, we measure in days so that timedelta(days=d) is just d). -/
structure MemoryRecord where
  gps : String
  timestamp : Int
  hazards : String
  signs : String
  image : String
deriving DecidableEq, Repr

/-- The document text stored alongside a record by save_report. -/
def recordDocument (r : MemoryRecord) : String :=
  "Hazards: " ++ r.hazards ++ " | Signs: " ++ r.signs

/-- save_report from src/memory/memory_bank.py: collection.add appends one
new record; the store is an append-only list in insertion order. -/
def save_report (store : List MemoryRecord) (gps hazards signs image_path : String)
    (now : Int) : List MemoryRecord :=
  store ++ [{ gps := gps, timestamp := now, hazards := hazards,
              signs := signs, image := image_path }]

/-- A ChromaDB similarity retrieval: given the store, a query text and
n_results, it returns the retrieved records, or none when the query raises. -/
def Retrieval : Type :=
  List MemoryRecord → String → Nat → Option (List MemoryRecord)

/-- What any ChromaDB query satisfies when it succeeds: it returns exactly
min(n_results, count) records, all drawn from the store.  Which records are
returned is decided by embedding distance, which the model leaves free. -/
def RetrievalOK (retrieve : Retrieval) : Prop :=
  ∀ store q n res, retrieve store q n = some res →
    res.length = min n store.length ∧ ∀ r, r ∈ res → r ∈ store

/-- was_recently_reported from src/memory/memory_bank.py: a similarity
query capped at 10 results, then a filter by recency and exact gps match;
any exception yields False via the try/except. -/
def was_recently_reported (retrieve : Retrieval) (store : List MemoryRecord)
    (now : Int) (gps : String) (days : Int) : Bool :=
  match retrieve store ("GPS: " ++ gps) 10 with
  | none => false
  | some res =>
    if res.isEmpty then false
    else
      let cutoff := now - days
      res.any (fun r => decide (cutoff < r.timestamp) && (r.gps == gps))

/-- get_location_history from src/memory/memory_bank.py: a similarity query
capped at limit results, returned without any filtering by gps; any
exception yields the empty list via the try/except. -/
def get_location_history (retrieve : Retrieval) (store : List MemoryRecord)
    (gps : String) (limit : Nat) : List MemoryRecord :=
  match retrieve store ("GPS: " ++ gps) limit with
  | none => []
  | some res => res

/-- The state dict threaded through the LangGraph nodes (AgentState in
src/main.py).  The severity key is absent initially and written by
prioritization_node, hence an Option. -/
structure AgentState where
  image_path : String
  gps : String
  messages : List String
  hazards : String
  signs : String
  should_report : Bool
  report : String
  error : Bool
  severity : Option String
deriving DecidableEq, Repr

/-- External calls made by the pipeline nodes, recorded for the frame and
temporal claims. -/
inductive ExtCall where
  | classifyHazards (img : String)
  | classifySigns (img : String)
  | recencyCheck (gps : String)
  | assessSeverity (hazards signs gps : String)
  | memAppend (gps hazards signs img : String)
deriving DecidableEq, Repr

/-- Recognizes the LocationMemory append event. -/
def ExtCall.isAppend : ExtCall → Bool
  | ExtCall.memAppend _ _ _ _ => true
  | _ => false

/-- Recognizes the severity assessor event. -/
def ExtCall.isAssessorCall : ExtCall → Bool
  | ExtCall.assessSeverity _ _ _ => true
  | _ => false

/-- Recognizes the two classifier events. -/
def ExtCall.isClassifierCall : ExtCall → Bool
  | ExtCall.classifyHazards _ => true
  | ExtCall.classifySigns _ => true
  | _ => false

/-- supervisor_node from src/agents/supervisor.py.  The llm.invoke call in
the try block is modelled by llmResp: some m is a successful response with
content m, none is an exception handled by the bare except.  The node then
sets the error flag from the image_path check alone. -/
def supervisor_node (llmResp : Option String) (state : AgentState) : AgentState :=
  let msgs1 := state.messages ++
    [match llmResp with
     | some m => "Supervisor Agent (Gemini) → " ++ m
     | none => "Supervisor Agent → Initiating road safety analysis pipeline"]
  if state.image_path = "" then
    { state with messages := msgs1 ++ ["Supervisor Agent → ERROR: No image provided"],
                 error := true }
  else
    { state with messages := msgs1 ++ ["Supervisor Agent → Validated input: " ++ state.image_path],
                 error := false }

/-- route_supervisor from src/agents/supervisor.py. -/
def route_supervisor (state : AgentState) : String :=
  if state.error then ("END") else ("vision")

/-- Rendering of detection results by the two tools in
src/tools/vision_tools.py: category prefix, then the joined detections or
the word None when nothing was detected. -/
def renderDetections (category : String) (detections : List String) : String :=
  category ++ ": " ++ (if detections.isEmpty then ("None") else String.intercalate " | " detections)

/-- The sentinel returned by detect_road_hazards when cv2.imread fails. -/
def hazardsReadErrorMsg : String := "Hazards: Error reading image"

/-- The sentinel returned by detect_and_assess_signs when cv2.imread fails. -/
def signsReadErrorMsg : String := "Signs: Error reading image"

/-- vision_node from src/agents/vision_agent.py: the two YOLO detector
tools are oracles from the image path to their rendered result strings. -/
def vision_node (detectHazards detectSigns : String → String)
    (state : AgentState) : AgentState × List ExtCall :=
  let hazards := detectHazards state.image_path
  let signs := detectSigns state.image_path
  let state2 := { state with
    hazards := hazards, signs := signs,
    messages := state.messages ++
      ["Vision Agent → " ++ hazards, "Vision Agent → " ++ signs] }
  (state2,
   [ExtCall.classifyHazards state.image_path, ExtCall.classifySigns state.image_path])

/-- prioritization_node from src/agents/prioritization_agent.py.  The
recency check result is an oracle on the gps key (was_recently_reported is
total, see the memory model), and the Gemini severity call is an oracle
response: some resp is the response content, none an exception caught by
the except branch.  A blank response makes split()[0] raise IndexError,
which the same except branch catches. -/
def prioritization_node (recent : String → Bool) (assessorResp : Option String)
    (state : AgentState) : AgentState × List ExtCall :=
  let gps := state.gps
  let hazards := state.hazards
  let signs := state.signs
  if recent gps then
    let state2 := { state with
      should_report := false,
      messages := state.messages ++
        ["Prioritization Agent → Location recently reported (within 7 days) → suppressed"] }
    (state2, [ExtCall.recencyCheck gps])
  else if strContains hazards ("None") || strContains hazards ("Error") then
    let state2 := { state with
      should_report := false,
      messages := state.messages ++
        ["Prioritization Agent → No significant hazards detected → low priority"] }
    (state2, [ExtCall.recencyCheck gps])
  else
    match assessorResp with
    | some resp =>
      match pyFirstWord resp with
      | some w =>
        let severity := if w == "HIGH" || w == "MEDIUM" || w == "LOW" then w else ("HIGH")
        let state2 := { state with
          severity := some severity, should_report := true,
          messages := state.messages ++
            ["Prioritization Agent (Gemini) → Severity assessed as " ++ severity ++ " → proceed to report"] }
        (state2, [ExtCall.recencyCheck gps, ExtCall.assessSeverity hazards signs gps])
      | none =>
        let state2 := { state with
          severity := some ("HIGH"), should_report := true,
          messages := state.messages ++
            ["Prioritization Agent → New high-priority hazard detected → proceed to report"] }
        (state2, [ExtCall.recencyCheck gps, ExtCall.assessSeverity hazards signs gps])
    | none =>
      let state2 := { state with
        severity := some ("HIGH"), should_report := true,
        messages := state.messages ++
          ["Prioritization Agent → New high-priority hazard detected → proceed to report"] }
      (state2, [ExtCall.recencyCheck gps, ExtCall.assessSeverity hazards signs gps])

/-- route_prioritization from src/agents/prioritization_agent.py. -/
def route_prioritization (state : AgentState) : String :=
  if state.should_report then ("report") else ("END")

/-- A line of 60 equals signs, "=" * 60 in report_node. -/
def eqLine : String := String.mk (List.replicate 60 '=')

/-- A line of 60 dashes, "-" * 60 in report_node. -/
def dashLine : String := String.mk (List.replicate 60 '-')

/-- The report text composed by report_node in src/agents/report_agent.py:
the header lines, the detection results, the bulleted workflow log and the
closing line, joined with newlines. -/
def buildReport (now gps image_path hazards signs : String)
    (messages : List String) : String :=
  String.intercalate "\n"
    ([eqLine, "SAFEROAD-GUARDIAN HAZARD REPORT", eqLine,
      "Timestamp: " ++ now, "Location (GPS): " ++ gps, "Image Source: " ++ image_path,
      dashLine, "DETECTION RESULTS:", hazards, signs, dashLine,
      "AGENT WORKFLOW LOG:"]
     ++ messages.map (fun m => "  • " ++ m) ++ [eqLine])

/-- report_node from src/agents/report_agent.py.  It composes the report,
then calls save_report with no surrounding try/except: when the store add
fails the exception propagates out of the node (Except.error) and the
report key is never written; on success the report key and the audit entry
are written.  The append attempt is recorded as an event either way. -/
def report_node (now : String) (saveOk : Bool) (state : AgentState) :
    Except String AgentState × List ExtCall :=
  let full_report := buildReport now state.gps state.image_path state.hazards
    state.signs state.messages
  if saveOk then
    let state2 := { state with
      report := full_report,
      messages := state.messages ++
        ["Report Agent → Generated and saved comprehensive report for " ++ state.gps] }
    (Except.ok state2,
     [ExtCall.memAppend state.gps state.hazards state.signs state.image_path])
  else
    (Except.error ("StoreError: collection.add failed"),
     [ExtCall.memAppend state.gps state.hazards state.signs state.image_path])

/-- The oracle bundle for one pipeline run: the supervisor LLM response,
the two detector tools, the recency answer per gps key, the assessor
response and whether the store add succeeds. -/
structure Oracles where
  supervisorLLM : Option String
  detectHazards : String → String
  detectSigns : String → String
  recentlyReported : String → Bool
  assessorResp : Option String
  saveOk : Bool
  now : String

/-- The terminal outcome of one run, in the vocabulary of the spec routing
table; storeFailure is the run in which report_node propagates a store
exception. -/
inductive RunOutcome where
  | aborted
  | suppressed
  | lowPriority
  | reported
  | storeFailure
deriving DecidableEq, Repr

/-- The result of one run: the final state (none when an exception escaped
the graph), the external calls made, and the terminal outcome. -/
structure RunResult where
  finalState : Option AgentState
  calls : List ExtCall
  outcome : RunOutcome
deriving Repr

/-- The compiled graph of create_graph in src/main.py: supervisor, then the
route_supervisor conditional edge, then vision, prioritization, the
route_prioritization conditional edge and report.  A suppressed end and a
low-priority end are distinguished by the recency answer, matching the two
prioritization branches that clear should_report. -/
def runPipeline (o : Oracles) (init : AgentState) : RunResult :=
  let s1 := supervisor_node o.supervisorLLM init
  if route_supervisor s1 = "END" then
    { finalState := some s1, calls := [], outcome := RunOutcome.aborted }
  else
    let v := vision_node o.detectHazards o.detectSigns s1
    let p := prioritization_node o.recentlyReported o.assessorResp v.1
    if route_prioritization p.1 = "report" then
      let r := report_node o.now o.saveOk p.1
      match r.1 with
      | Except.ok s4 =>
        { finalState := some s4, calls := v.2 ++ p.2 ++ r.2,
          outcome := RunOutcome.reported }
      | Except.error _ =>
        { finalState := none, calls := v.2 ++ p.2 ++ r.2,
          outcome := RunOutcome.storeFailure }
    else
      if o.recentlyReported v.1.gps then
        { finalState := some p.1, calls := v.2 ++ p.2,
          outcome := RunOutcome.suppressed }
      else
        { finalState := some p.1, calls := v.2 ++ p.2,
          outcome := RunOutcome.lowPriority }

/-- The severity recorded on the final state of a run, when there is one. -/
def finalSeverity (r : RunResult) : Option String :=
  match r.finalState with
  | some s => s.severity
  | none => none

/-- A retrieval that returns the first min(n, count) records of the store:
one legitimate ChromaDB behaviour, in which earlier-stored documents rank
nearer to the query text.  Nothing in the source constrains the ranking,
since the stored documents do not even contain the gps key. -/
def retrieveTake : Retrieval := fun store _ n => some (store.take n)

/-- A retrieval whose query always raises. -/
def retrieveNone : Retrieval := fun _ _ _ => none

/-- The default gps key of src/main.py. -/
def gpsColombo : String := "6.9271,79.8612"

/-- A different location key. -/
def gpsOther : String := "7.0000,80.0000"

/-- A record persisted for the other location. -/
def otherRec : MemoryRecord :=
  { gps := gpsOther, timestamp := 100,
    hazards := "Hazards: pothole (conf 0.88, size 400px)",
    signs := "Signs: None", image := "other.jpg" }

/-- Ten records for the other location; under retrieveTake they all rank
ahead of anything stored later. -/
def crowdStore : List MemoryRecord := List.replicate 10 otherRec

/-- The store right after Append for gpsColombo at time 100, on top of the
ten other-location records. -/
def storeCrowded : List MemoryRecord :=
  save_report crowdStore gpsColombo ("Hazards: pothole (conf 0.91, size 500px)")
    ("Signs: None") ("img.jpg") 100

/-- Whether the store holds a record for this exact gps key with timestamp
strictly inside the window, the membership test the spec contract asks
was_recently_reported to implement. -/
def hasExactRecentRecord (store : List MemoryRecord) (now : Int) (gps : String)
    (days : Int) : Bool :=
  store.any (fun r => (r.gps == gps) && decide (now - days < r.timestamp))

/-- An oracle bundle for a healthy run with one genuine hazard finding. -/
def oHazardRun : Oracles :=
  { supervisorLLM := none,
    detectHazards := fun _ => ("Hazards: pothole (conf 0.91, size 500px)"),
    detectSigns := fun _ => ("Signs: None"),
    recentlyReported := fun _ => false,
    assessorResp := some ("HIGH"),
    saveOk := true,
    now := "2025-01-01 00:00:00" }

/-- The initial state built by run_analysis in src/main.py. -/
def initState (image_path gps : String) : AgentState :=
  { image_path := image_path, gps := gps, messages := [],
    hazards := "", signs := "", should_report := false,
    report := "", error := false, severity := none }

/-- A state as it reaches prioritization: hazard string contains the word
None inside a genuine label, signage has a genuine finding. -/
def stNoneLabel : AgentState :=
  { image_path := "road.jpg", gps := gpsColombo, messages := [],
    hazards := "Hazards: NoneSuchCrack (conf 0.99, size 120px)",
    signs := "Signs: stop sign (good, conf 0.95)",
    should_report := false, report := "", error := false, severity := none }

/-- A state as it reaches prioritization with no hazard findings but one
genuine signage finding. -/
def stSignsOnly : AgentState :=
  { image_path := "road.jpg", gps := gpsColombo, messages := [],
    hazards := "Hazards: None",
    signs := "Signs: stop sign (good, conf 0.95)",
    should_report := false, report := "", error := false, severity := none }

/-- A state as it reaches the report stage. -/
def stAtReport : AgentState :=
  { image_path := "road.jpg", gps := gpsColombo,
    messages := ["Vision Agent → Hazards: pothole (conf 0.91, size 500px)"],
    hazards := "Hazards: pothole (conf 0.91, size 500px)",
    signs := "Signs: None",
    should_report := true, report := "", error := false, severity := some "HIGH" }

/-- The oracle bundle with a failing severity assessor. -/
def oAssessorFail : Oracles := { oHazardRun with assessorResp := none }

/-- The oracle bundle in which both the severity assessor and the store
append fail, while the detectors report a genuine hazard and the location
is not recently reported. -/
def oAssessorStoreFail : Oracles := { oAssessorFail with saveOk := false }

/-- The oracle bundle in which both detectors find nothing, so both result
strings render as no findings. -/
def oNoFindings : Oracles :=
  { oHazardRun with
    detectHazards := fun _ => renderDetections ("Hazards") [],
    detectSigns := fun _ => renderDetections ("Signs") [] }

/-- The oracle bundle in which the hazard label itself contains the word
None while being a genuine finding, and signage has a genuine finding. -/
def oNoneLabel : Oracles :=
  { oHazardRun with
    detectHazards := fun _ => ("Hazards: NoneSuchCrack (conf 0.99, size 120px)"),
    detectSigns := fun _ => ("Signs: stop sign (good, conf 0.95)") }

/-- Helper for the retrieval oracles: retrieveTake satisfies the ChromaDB
query contract. -/
theorem retrieveTake_ok : RetrievalOK retrieveTake := by
  intro store q n res h
  have hres : store.take n = res := by
    simpa [retrieveTake] using h
  subst hres
  refine ⟨List.length_take n store, ?_⟩
  intro r hr
  exact List.take_subset n store hr

/-- Helper for the retrieval oracles: the always-raising retrieval
vacuously satisfies the query contract. -/
theorem retrieveNone_ok : RetrievalOK retrieveNone :=
  fun _ _ _ _ h => Option.noConfusion h

/-- C1: the recency check is claimed to return true iff an exact-match
record inside the window exists, unaffected by other locations.  The code
evaluates to false on a store that holds a fresh record for the queried
location, because the similarity query is capped at 10 results and ten
other-location records rank ahead of it: the claimed contract fails. -/
theorem c1_recency_exactness_code_evaluation :
    RetrievalOK retrieveTake
  ∧ was_recently_reported retrieveTake storeCrowded 100 gpsColombo 7 = false
  ∧ hasExactRecentRecord storeCrowded 100 gpsColombo 7 = true :=
  ⟨retrieveTake_ok, by decide, by decide⟩

/-- C5: was_recently_reported is total by construction; it returns false
on the empty store for every retrieval satisfying the query contract, and
returns false whenever the underlying query raises. -/
theorem c5_recency_check_fail_open :
    ∀ (retrieve : Retrieval) (now days : Int) (gps : String),
      (RetrievalOK retrieve →
        was_recently_reported retrieve [] now gps days = false)
    ∧ (∀ store, retrieve store ("GPS: " ++ gps) 10 = none →
        was_recently_reported retrieve store now gps days = false) := by
  intro retrieve now days gps
  constructor
  · intro hok
    unfold was_recently_reported
    cases h : retrieve [] ("GPS: " ++ gps) 10 with
    | none => rfl
    | some res =>
      have hlen := (hok [] ("GPS: " ++ gps) 10 res h).1
      simp only [List.length_nil, Nat.min_zero, List.length_eq_zero] at hlen
      subst hlen
      rfl
  · intro store h
    unfold was_recently_reported
    rw [h]

/-- C5 witness: concrete evaluations through the theorem, with a raising
retrieval on the empty and on a one-record store. -/
theorem c5_recency_check_fail_open_witness :
    was_recently_reported retrieveNone [] 0 gpsColombo 7 = false
  ∧ was_recently_reported retrieveNone [otherRec] 0 gpsColombo 7 = false :=
  ⟨(c5_recency_check_fail_open retrieveNone 0 7 gpsColombo).1 retrieveNone_ok,
   (c5_recency_check_fail_open retrieveNone 0 7 gpsColombo).2 [otherRec] rfl⟩

/-- C7: History is claimed to return exactly the queried locations records
and the empty sequence when none exist.  The code returns the similarity
query results without any gps filter: on a one-record store holding only a
record for another location, the history of gpsColombo is that foreign
record, not the empty sequence. -/
theorem c7_history_code_evaluation :
    RetrievalOK retrieveTake
  ∧ get_location_history retrieveTake [otherRec] gpsColombo 5 = [otherRec]
  ∧ (otherRec.gps == gpsColombo) = false :=
  ⟨retrieveTake_ok, by rfl, by rfl⟩

/-- Helper: prioritization always issues the recency check, and issues the
assessor call exactly on the branch that proceeds to reporting. -/
theorem prioritization_calls (recent : String → Bool) (a : Option String)
    (s : AgentState) :
    (prioritization_node recent a s).2 = [ExtCall.recencyCheck s.gps]
  ∨ (prioritization_node recent a s).2 =
      [ExtCall.recencyCheck s.gps, ExtCall.assessSeverity s.hazards s.signs s.gps] := by
  unfold prioritization_node
  cases hr : recent s.gps with
  | true => left; simp [hr]
  | false =>
    cases hco : (strContains s.hazards ("None") || strContains s.hazards ("Error")) with
    | true => left; simp [hr, hco]
    | false =>
      right
      cases a with
      | none => simp [hr, hco]
      | some resp => cases hw : pyFirstWord resp <;> simp [hr, hco, hw]

/-- Helper: on every run, either the outcome is reported or storeFailure
(the only two paths that reach report_node) or no append event was
emitted. -/
theorem runPipeline_append_frame (o : Oracles) (init : AgentState) :
    (runPipeline o init).outcome = RunOutcome.reported
  ∨ (runPipeline o init).outcome = RunOutcome.storeFailure
  ∨ (runPipeline o init).calls.all (fun c => !c.isAppend) = true := by
  unfold runPipeline
  by_cases h1 : route_supervisor (supervisor_node o.supervisorLLM init) = "END"
  · right; right; simp [h1]
  · simp only [h1, if_false]
    set s1 := supervisor_node o.supervisorLLM init
    set v := vision_node o.detectHazards o.detectSigns s1 with hv
    set p := prioritization_node o.recentlyReported o.assessorResp v.1 with hp
    by_cases h2 : route_prioritization p.1 = "report"
    · simp only [h2, if_true]
      rcases hrx : (report_node o.now o.saveOk p.1).1 with e | s4
      · right; left; simp [hrx]
      · left; simp [hrx]
    · right; right
      simp only [h2, if_false]
      have hvc : v.2 = [ExtCall.classifyHazards s1.image_path,
          ExtCall.classifySigns s1.image_path] := by
        rw [hv]; rfl
      have hpc := prioritization_calls o.recentlyReported o.assessorResp v.1
      rw [← hp] at hpc
      by_cases h3 : o.recentlyReported v.1.gps = true
      · simp only [h3, if_true]
        rcases hpc with h | h <;> simp [hvc, h, ExtCall.isAppend]
      · simp only [eq_false_of_ne_true h3, if_false]
        rcases hpc with h | h <;> simp [hvc, h, ExtCall.isAppend]

/-- C2: when the observation has an empty image reference, the run ends
aborted regardless of every other field and oracle, and no classifier,
assessor, recency or append call is made. -/
theorem c2_abort_precedence :
    ∀ (o : Oracles) (init : AgentState), init.image_path = "" →
      (runPipeline o init).outcome = RunOutcome.aborted
    ∧ (runPipeline o init).calls = [] := by
  intro o init h
  unfold runPipeline supervisor_node route_supervisor
  simp [h]

/-- C2 witness: the empty image reference with otherwise healthy oracles. -/
theorem c2_abort_precedence_witness :
    (runPipeline oHazardRun (initState ("") gpsColombo)).outcome = RunOutcome.aborted
  ∧ (runPipeline oHazardRun (initState ("") gpsColombo)).calls = [] :=
  c2_abort_precedence oHazardRun (initState ("") gpsColombo) rfl

/-- C3 counterexample: a state whose hazard set rendered empty but whose
signage set rendered a genuine finding still gets should_report = false,
so the claimed if-and-only-if on both finding sets fails on the code. -/
theorem c3_low_priority_counterexample :
    (prioritization_node (fun _ => false) (some ("HIGH")) stSignsOnly).1.should_report = false
  ∧ stSignsOnly.hazards = renderDetections ("Hazards") []
  ∧ stSignsOnly.signs = renderDetections ("Signs") [("stop sign (good, conf 0.95)")]
  ∧ stSignsOnly.signs ≠ renderDetections ("Signs") []
  ∧ stSignsOnly.signs ≠ signsReadErrorMsg :=
  ⟨by rfl, by rfl, by rfl, by decide, by decide⟩

/-- C3 amended: when the location is not recently reported, should_report
is cleared if and only if the hazards string contains None or Error as a
substring; the signage findings are never consulted by this decision. -/
theorem c3_low_priority_amended :
    ∀ (recent : String → Bool) (assessorResp : Option String) (s : AgentState),
      recent s.gps = false →
      (((prioritization_node recent assessorResp s).1.should_report = false)
       ↔ ((strContains s.hazards ("None") || strContains s.hazards ("Error")) = true)) := by
  intro recent a s hr
  unfold prioritization_node
  cases hco : (strContains s.hazards ("None") || strContains s.hazards ("Error")) with
  | true => simp [hr, hco]
  | false =>
    cases a with
    | none => simp [hr, hco]
    | some resp => cases hw : pyFirstWord resp <;> simp [hr, hco, hw]

/-- C3 amended witness: the amended equivalence at the concrete
signs-only state. -/
theorem c3_low_priority_amended_witness :
    ((prioritization_node (fun _ => false) (some ("HIGH")) stSignsOnly).1.should_report = false)
  ↔ ((strContains stSignsOnly.hazards ("None") || strContains stSignsOnly.hazards ("Error")) = true) :=
  c3_low_priority_amended (fun _ => false) (some ("HIGH")) stSignsOnly rfl

/-- C4 counterexample: a run meeting all of the claim's stated hypotheses
(assessor exception, genuine hazard findings, location not recently
reported) does not terminate reported when the store append also fails:
the exception propagates out of the report stage, the outcome is
storeFailure and no final state carries a severity, so the claimed
universal REPORTED-with-HIGH fails on the code. -/
theorem c4_severity_fail_open_counterexample :
    (runPipeline oAssessorStoreFail (initState ("road.jpg") gpsColombo)).outcome = RunOutcome.storeFailure
  ∧ (runPipeline oAssessorStoreFail (initState ("road.jpg") gpsColombo)).outcome ≠ RunOutcome.reported
  ∧ finalSeverity (runPipeline oAssessorStoreFail (initState ("road.jpg") gpsColombo)) = none
  ∧ oAssessorStoreFail.assessorResp = none
  ∧ oAssessorStoreFail.recentlyReported gpsColombo = false
  ∧ strContains (oAssessorStoreFail.detectHazards ("road.jpg")) ("None") = false
  ∧ strContains (oAssessorStoreFail.detectHazards ("road.jpg")) ("Error") = false :=
  ⟨by rfl, by decide, by rfl, by rfl, by rfl, by decide, by decide⟩

/-- C4 amended: with genuine hazard findings, a not-recently-reported
location, an assessor exception and a successful store append, the run
ends reported with severity HIGH (first conjunct; when the append fails
instead, the store exception propagates and the run ends storeFailure, as
the counterexample shows); and on assessor success, whenever the
extracted first word of the upper-cased response is outside HIGH, MEDIUM,
LOW, the severity is coerced to HIGH and the run still proceeds to
reporting (second conjunct). -/
theorem c4_severity_fail_open :
    (∀ (o : Oracles) (init : AgentState),
      init.image_path ≠ "" →
      o.recentlyReported init.gps = false →
      strContains (o.detectHazards init.image_path) ("None") = false →
      strContains (o.detectHazards init.image_path) ("Error") = false →
      o.assessorResp = none →
      o.saveOk = true →
      (runPipeline o init).outcome = RunOutcome.reported
    ∧ finalSeverity (runPipeline o init) = some ("HIGH"))
  ∧ (∀ (recent : String → Bool) (resp : String) (s : AgentState),
      recent s.gps = false →
      strContains s.hazards ("None") = false →
      strContains s.hazards ("Error") = false →
      pyFirstWord resp ≠ some ("HIGH") →
      pyFirstWord resp ≠ some ("MEDIUM") →
      pyFirstWord resp ≠ some ("LOW") →
      (prioritization_node recent (some resp) s).1.severity = some ("HIGH")
    ∧ (prioritization_node recent (some resp) s).1.should_report = true) := by
  constructor
  · intro o init h1 h2 h3 h4 h5 h6
    unfold runPipeline supervisor_node route_supervisor vision_node prioritization_node route_prioritization report_node finalSeverity
    simp [h1, h2, h3, h4, h5, h6]
  · intro recent resp s h1 h2 h3 n1 n2 n3
    unfold prioritization_node
    simp only [h1, h2, h3, Bool.or_self, if_false]
    cases hw : pyFirstWord resp with
    | none => simp
    | some w =>
      rw [hw] at n1 n2 n3
      have e1 : (w == "HIGH") = false := by
        simp only [beq_eq_false_iff_ne]; intro hh; exact n1 (by rw [hh])
      have e2 : (w == "MEDIUM") = false := by
        simp only [beq_eq_false_iff_ne]; intro hh; exact n2 (by rw [hh])
      have e3 : (w == "LOW") = false := by
        simp only [beq_eq_false_iff_ne]; intro hh; exact n3 (by rw [hh])
      simp [e1, e2, e3]

/-- C4 witness: an assessor exception on a genuine pothole run, and an
assessor reply whose first word CATASTROPHIC is outside the valid tiers. -/
theorem c4_severity_fail_open_witness :
    ((runPipeline oAssessorFail (initState ("road.jpg") gpsColombo)).outcome = RunOutcome.reported
     ∧ finalSeverity (runPipeline oAssessorFail (initState ("road.jpg") gpsColombo)) = some ("HIGH"))
  ∧ ((prioritization_node (fun _ => false) (some ("catastrophic danger level")) stAtReport).1.severity = some ("HIGH")
     ∧ (prioritization_node (fun _ => false) (some ("catastrophic danger level")) stAtReport).1.should_report = true) :=
  ⟨c4_severity_fail_open.1 oAssessorFail (initState ("road.jpg") gpsColombo)
      (by decide) rfl (by decide) (by decide) rfl rfl,
   c4_severity_fail_open.2 (fun _ => false) ("catastrophic danger level") stAtReport
      rfl (by decide) (by decide) (by decide) (by decide) (by decide)⟩

/-- C6 counterexample: at a concrete state reaching the report stage, when
the store append fails the node propagates the error after having
attempted the append, so no returned state carries a final report; the
claim that final_report is still set fails on the code. -/
theorem c6_append_failure_counterexample :
    (report_node ("2025-06-01 12:00:00") false stAtReport).1 =
      Except.error ("StoreError: collection.add failed")
  ∧ (report_node ("2025-06-01 12:00:00") false stAtReport).2 =
      [ExtCall.memAppend stAtReport.gps stAtReport.hazards stAtReport.signs stAtReport.image_path] :=
  ⟨rfl, rfl⟩

/-- C6 amended: when Append fails the exception propagates out of the
report stage and no state is returned at all; when Append succeeds the
stage returns the state with report set to the composed report text and
the saved audit entry appended. -/
theorem c6_append_failure_amended :
    ∀ (now : String) (s : AgentState),
      (∀ s2, (report_node now false s).1 ≠ Except.ok s2)
    ∧ (report_node now true s).1 = Except.ok { s with
        report := buildReport now s.gps s.image_path s.hazards s.signs s.messages,
        messages := s.messages ++ ["Report Agent → Generated and saved comprehensive report for " ++ s.gps] } := by
  intro now s
  refine ⟨?_, rfl⟩
  intro s2 h
  simp [report_node] at h

/-- C8: every run ending aborted, suppressed or low priority emits no
append event (first conjunct); and when both detectors render no findings
on a not-recently-reported location, the run ends low priority with no
append event (second conjunct). -/
theorem c8_append_only_in_reporting :
    (∀ (o : Oracles) (init : AgentState),
      ((runPipeline o init).outcome = RunOutcome.aborted ∨
       (runPipeline o init).outcome = RunOutcome.suppressed ∨
       (runPipeline o init).outcome = RunOutcome.lowPriority) →
      (runPipeline o init).calls.all (fun c => !c.isAppend) = true)
  ∧ (∀ (o : Oracles) (init : AgentState),
      init.image_path ≠ "" →
      o.recentlyReported init.gps = false →
      o.detectHazards init.image_path = renderDetections ("Hazards") [] →
      o.detectSigns init.image_path = renderDetections ("Signs") [] →
      (runPipeline o init).outcome = RunOutcome.lowPriority
    ∧ (runPipeline o init).calls.all (fun c => !c.isAppend) = true) := by
  constructor
  · intro o init h
    rcases runPipeline_append_frame o init with h1 | h1 | h1
    · rw [h1] at h; simp at h
    · rw [h1] at h; simp at h
    · exact h1
  · intro o init h1 h2 h3 h4
    have hn : strContains (renderDetections ("Hazards") []) ("None") = true := by decide
    unfold runPipeline supervisor_node route_supervisor vision_node prioritization_node route_prioritization
    simp [h1, h2, h3, h4, hn, ExtCall.isAppend]

/-- C8 witness: an aborted run emits no append event, and the
empty-findings run ends low priority with no append event. -/
theorem c8_append_only_in_reporting_witness :
    (runPipeline oHazardRun (initState ("") gpsColombo)).calls.all (fun c => !c.isAppend) = true
  ∧ ((runPipeline oNoFindings (initState ("road.jpg") gpsColombo)).outcome = RunOutcome.lowPriority
     ∧ (runPipeline oNoFindings (initState ("road.jpg") gpsColombo)).calls.all (fun c => !c.isAppend) = true) :=
  ⟨c8_append_only_in_reporting.1 oHazardRun (initState ("") gpsColombo) (Or.inl (by rfl)),
   c8_append_only_in_reporting.2 oNoFindings (initState ("road.jpg") gpsColombo)
      (by decide) rfl rfl rfl⟩

/-- C9 counterexample: two intake runs on the same observation differ when
the llm oracle answers differently, so intake output is not a function of
the observation fields alone and the purity claim fails on the code. -/
theorem c9_intake_purity_counterexample :
    supervisor_node (some ("alpha")) (initState ("road.jpg") gpsColombo)
  ≠ supervisor_node (some ("beta")) (initState ("road.jpg") gpsColombo) := by
  decide

/-- C9 amended: the abort flag and the final validation-or-error audit
entry of the intake stage are deterministic in the observation fields and
independent of the llm response, but the preceding workflow audit entry
comes from the llm call, so the full output is not. -/
theorem c9_intake_purity_amended :
    ∀ (r1 r2 : Option String) (s : AgentState),
      (supervisor_node r1 s).error = (supervisor_node r2 s).error
    ∧ ((supervisor_node r1 s).error = true ↔ s.image_path = "")
    ∧ (supervisor_node r1 s).messages.getLast? = (supervisor_node r2 s).messages.getLast? := by
  intro r1 r2 s
  unfold supervisor_node
  by_cases h : s.image_path = "" <;>
    simp [h, List.getLast?_concat]

/-- C10: when the location is not recently reported and the rendered
hazards string contains None or Error as a substring, even inside a
genuine label, the run ends low priority with should_report false and no
assessor call, whatever the signage findings are. -/
theorem c10_substring_low_priority_gate :
    ∀ (o : Oracles) (init : AgentState),
      init.image_path ≠ "" →
      o.recentlyReported init.gps = false →
      (strContains (o.detectHazards init.image_path) ("None") = true ∨
       strContains (o.detectHazards init.image_path) ("Error") = true) →
      (runPipeline o init).outcome = RunOutcome.lowPriority
    ∧ (runPipeline o init).finalState.map (fun st => st.should_report) = some false
    ∧ (runPipeline o init).calls.all (fun c => !c.isAssessorCall) = true := by
  intro o init h1 h2 h3
  unfold runPipeline supervisor_node route_supervisor vision_node prioritization_node route_prioritization
  rcases h3 with h3 | h3 <;> simp [h1, h2, h3, ExtCall.isAssessorCall]

/-- C10 witness: a genuine hazard labelled NoneSuchCrack and a genuine
stop-sign finding still end low priority with no assessor call. -/
theorem c10_substring_low_priority_gate_witness :
    (runPipeline oNoneLabel (initState ("road.jpg") gpsColombo)).outcome = RunOutcome.lowPriority
  ∧ (runPipeline oNoneLabel (initState ("road.jpg") gpsColombo)).finalState.map (fun st => st.should_report) = some false
  ∧ (runPipeline oNoneLabel (initState ("road.jpg") gpsColombo)).calls.all (fun c => !c.isAssessorCall) = true :=
  c10_substring_low_priority_gate oNoneLabel (initState ("road.jpg") gpsColombo)
    (by decide) rfl (Or.inl (by decide))
